import Mathlib

/-!
Shallow embedding of the warehouse-backend pallet subsystem
(src/routes/pallets.js together with the schema in database/schema.sql).

The database is modelled as an explicit state (`DB`): a list of pallet
rows and a list of audit rows (`pallet_scans`).  Each route handler
becomes a pure function from the state (plus request data) to a new
state paired with an `Except` result.  PostgreSQL's transaction
semantics for the scan route (BEGIN / UPDATE / INSERT / COMMIT with
ROLLBACK on any error) are modelled with a `StorageOracle` telling
which of the writes succeeds: since writes inside a transaction only
become visible at COMMIT, any failure yields the original state.
Timestamps (`CURRENT_TIMESTAMP`) are supplied as a `now : Nat`
argument.  In this sequential, single-connection model the append
order of `palletScans` coincides with `scanned_at` order, so
`ORDER BY scanned_at DESC` is the reverse of append order.
-/

namespace Warehouse

/-- The 7-value status enum, from routes/pallets.js lines 179-187
(also the CHECK constraint on `pallets.status` in schema.sql). -/
def validStatuses : List String :=
  ["At Production", "Picked from Production", "In Transit to Warehouse",
   "At Warehouse", "Picked for Delivery", "Out for Delivery", "Delivered"]

/-- One row of the `pallets` table (schema.sql).  Dates, weights and
other pass-through values are modelled as opaque strings. -/
structure Pallet where
  palletId : String
  itemCode : String
  itemName : String
  itemQuantity : Int
  unitNo : Option String := none
  weightKg : Option String := none
  productionDate : Option String := none
  expiryDate : Option String := none
  status : String := "At Production"
  warehouseLocation : Option String := none
  destination : Option String := none
  createdAt : Nat := 0
  updatedAt : Nat := 0
deriving Repr, DecidableEq

/-- One row of the `pallet_scans` audit table (schema.sql). -/
structure AuditRecord where
  palletId : String
  floId : String
  floName : String
  previousStatus : String
  newStatus : String
  scanLocation : Option String := none
  latitude : Option String := none
  longitude : Option String := none
  notes : Option String := none
  scannedAt : Nat := 0
deriving Repr, DecidableEq

/-- The persistent store: the two tables the pallet routes touch. -/
structure DB where
  pallets : List Pallet := []
  palletScans : List AuditRecord := []
deriving Repr, DecidableEq

/-- The authenticated actor (`req.user` as set by the auth middleware). -/
structure User where
  flo_id : Option String := none
  username : String
  full_name : String
deriving Repr, DecidableEq

/-- JavaScript truthiness of an optional string (undefined/null/"" are falsy). -/
def truthy : Option String → Bool
  | none => false
  | some s => !(s == "")

/-- JavaScript truthiness of an optional number (undefined/null/0 are falsy). -/
def truthyInt : Option Int → Bool
  | none => false
  | some n => !(n == 0)

/-- `req.user.flo_id || req.user.username` (routes/pallets.js line 234). -/
def actorId (u : User) : String :=
  if truthy u.flo_id then u.flo_id.getD u.username else u.username

/-- The distinguishable failure kinds the pallet routes report. -/
inductive ApiError where
  | validationError
  | duplicateId
  | invalidStatus
  | palletNotFound
  | storageFailure
  | noFieldsToUpdate
deriving Repr, DecidableEq

/-- `SELECT * FROM pallets WHERE pallet_id = $1` (first row). -/
def findPallet (db : DB) (pid : String) : Option Pallet :=
  db.pallets.find? (fun p => p.palletId == pid)

/-- Request body of `POST /api/pallets` (fields absent from the JSON body
are `none`). -/
structure CreateReq where
  palletId : Option String := none
  itemCode : Option String := none
  itemName : Option String := none
  itemQuantity : Option Int := none
  unitNo : Option String := none
  weightKg : Option String := none
  productionDate : Option String := none
  expiryDate : Option String := none
  warehouseLocation : Option String := none
  destination : Option String := none
deriving Repr, DecidableEq

/-- The row INSERTed by `POST /api/pallets`: `status` is not in the
INSERT column list, so the schema default `'At Production'` applies. -/
def freshPallet (req : CreateReq) (now : Nat) : Pallet :=
  { palletId := req.palletId.getD ""
    itemCode := req.itemCode.getD ""
    itemName := req.itemName.getD ""
    itemQuantity := req.itemQuantity.getD 0
    unitNo := req.unitNo
    weightKg := req.weightKg
    productionDate := req.productionDate
    expiryDate := req.expiryDate
    status := "At Production"
    warehouseLocation := req.warehouseLocation
    destination := req.destination
    createdAt := now
    updatedAt := now }

/-- `POST /api/pallets` (routes/pallets.js lines 15-66): required-field
truthiness check, duplicate check, then INSERT. -/
def createPallet (db : DB) (req : CreateReq) (now : Nat) :
    DB × Except ApiError Pallet :=
  if !truthy req.palletId || !truthy req.itemCode || !truthy req.itemName
      || !truthyInt req.itemQuantity then
    (db, .error .validationError)
  else
    if (findPallet db (req.palletId.getD "")).isSome then
      (db, .error .duplicateId)
    else
      ({ db with pallets := db.pallets ++ [freshPallet req now] },
       .ok (freshPallet req now))

/-- Request body of `POST /api/pallets/:palletId/scan`. -/
structure ScanBody where
  newStatus : Option String := none
  warehouseLocation : Option String := none
  notes : Option String := none
  latitude : Option String := none
  longitude : Option String := none
deriving Repr, DecidableEq

/-- Outcome oracle for the three effectful steps of the scan transaction
(UPDATE, INSERT, COMMIT).  Failure of any of them triggers ROLLBACK. -/
structure StorageOracle where
  updateOk : Bool := true
  insertOk : Bool := true
  commitOk : Bool := true
deriving Repr, DecidableEq

/-- The oracle where storage behaves (every write succeeds). -/
def stOk : StorageOracle := {}

/-- The JSON body returned by a successful scan (routes/pallets.js 247-252). -/
structure ScanResponse where
  pallet : Pallet
  previousStatus : String
  newStatus : String
deriving Repr, DecidableEq

/-- `validStatuses.includes(newStatus)`; an absent `newStatus` is not a
member. -/
def statusValid (body : ScanBody) : Bool :=
  match body.newStatus with
  | some s => validStatuses.contains s
  | none => false

/-- The UPDATE of the scan route (routes/pallets.js 210-224): sets
`status` and `updated_at`, and `warehouse_location` only when the body
supplies a truthy one. -/
def scanUpdate (ns : String) (loc : Option String) (now : Nat) (p : Pallet) : Pallet :=
  { p with status := ns, updatedAt := now,
           warehouseLocation := if truthy loc then loc else p.warehouseLocation }

/-- The audit row INSERTed by the scan route (routes/pallets.js 227-243). -/
def mkScanRecord (pid : String) (u : User) (body : ScanBody)
    (prev ns : String) (now : Nat) : AuditRecord :=
  { palletId := pid
    floId := actorId u
    floName := u.full_name
    previousStatus := prev
    newStatus := ns
    scanLocation := body.warehouseLocation
    latitude := body.latitude
    longitude := body.longitude
    notes := body.notes
    scannedAt := now }

/-- `POST /api/pallets/:palletId/scan` (routes/pallets.js 171-260):
status validation before BEGIN, SELECT ... FOR UPDATE, early 404 when
the pallet is missing, then UPDATE + INSERT inside one transaction;
any storage failure rolls the whole transaction back. -/
def recordScan (db : DB) (pid : String) (u : User) (body : ScanBody)
    (st : StorageOracle) (now : Nat) : DB × Except ApiError ScanResponse :=
  if !(statusValid body) then
    (db, .error .invalidStatus)
  else
    match findPallet db pid with
    | none => (db, .error .palletNotFound)
    | some pallet =>
      let ns := body.newStatus.getD ""
      let previousStatus := pallet.status
      let newPallets := db.pallets.map
        (fun q => if q.palletId == pid then scanUpdate ns body.warehouseLocation now q else q)
      let auditRec := mkScanRecord pid u body previousStatus ns now
      if st.updateOk && st.insertOk && st.commitOk then
        ({ pallets := newPallets, palletScans := db.palletScans ++ [auditRec] },
         .ok ⟨scanUpdate ns body.warehouseLocation now pallet, previousStatus, ns⟩)
      else
        (db, .error .storageFailure)

/-- Audit rows of one pallet in chronological (append/`scanned_at`) order. -/
def scansFor (db : DB) (pid : String) : List AuditRecord :=
  db.palletScans.filter (fun r => r.palletId == pid)

/-- The JSON body returned by `GET /api/pallets/:palletId/history`. -/
structure HistoryResponse where
  palletId : String
  history : List AuditRecord
deriving Repr, DecidableEq

/-- `GET /api/pallets/:palletId/history` (routes/pallets.js 264-283):
`SELECT * FROM pallet_scans WHERE pallet_id = $1 ORDER BY scanned_at
DESC`.  Note the route never checks that the pallet itself exists. -/
def getHistory (db : DB) (pid : String) : Except ApiError HistoryResponse :=
  .ok ⟨pid, (scansFor db pid).reverse⟩

/-- Request body of `PUT /api/pallets/:palletId` (`none` = field absent,
i.e. `undefined` in the handler's `!== undefined` tests). -/
structure UpdateReq where
  itemCode : Option String := none
  itemName : Option String := none
  itemQuantity : Option Int := none
  unitNo : Option String := none
  weightKg : Option String := none
  productionDate : Option String := none
  expiryDate : Option String := none
  warehouseLocation : Option String := none
  destination : Option String := none
deriving Repr, DecidableEq

/-- Whether the dynamic update list of the PUT handler is non-empty. -/
def hasUpdates (req : UpdateReq) : Bool :=
  req.itemCode.isSome || req.itemName.isSome || req.itemQuantity.isSome
    || req.unitNo.isSome || req.weightKg.isSome || req.productionDate.isSome
    || req.expiryDate.isSome || req.warehouseLocation.isSome || req.destination.isSome

/-- The SET clause built by the PUT handler: each supplied field
overwrites the column, `updated_at` is always bumped, `status` is not
among the updatable columns. -/
def adminUpdate (req : UpdateReq) (now : Nat) (p : Pallet) : Pallet :=
  { p with
    itemCode := req.itemCode.getD p.itemCode
    itemName := req.itemName.getD p.itemName
    itemQuantity := req.itemQuantity.getD p.itemQuantity
    unitNo := match req.unitNo with | some v => some v | none => p.unitNo
    weightKg := match req.weightKg with | some v => some v | none => p.weightKg
    productionDate := match req.productionDate with | some v => some v | none => p.productionDate
    expiryDate := match req.expiryDate with | some v => some v | none => p.expiryDate
    warehouseLocation := match req.warehouseLocation with | some v => some v | none => p.warehouseLocation
    destination := match req.destination with | some v => some v | none => p.destination
    updatedAt := now }

/-- `PUT /api/pallets/:palletId` (routes/pallets.js 288-377). -/
def updatePallet (db : DB) (pid : String) (req : UpdateReq) (now : Nat) :
    DB × Except ApiError Pallet :=
  if !(hasUpdates req) then
    (db, .error .noFieldsToUpdate)
  else
    match findPallet db pid with
    | none => (db, .error .palletNotFound)
    | some p =>
      ({ db with pallets := (db.pallets.map
          (fun q => if q.palletId == pid then adminUpdate req now q else q)) },
       .ok (adminUpdate req now p))

/-- `DELETE /api/pallets/:palletId` (routes/pallets.js 381-399); the
`ON DELETE CASCADE` on `pallet_scans.pallet_id` (schema.sql) removes
the pallet's audit rows along with the pallet. -/
def deletePallet (db : DB) (pid : String) : DB × Except ApiError Unit :=
  match findPallet db pid with
  | none => (db, .error .palletNotFound)
  | some _ =>
    ({ pallets := db.pallets.filter (fun p => !(p.palletId == pid)),
       palletScans := db.palletScans.filter (fun r => !(r.palletId == pid)) },
     .ok ())

/-- Run a sequence of scan calls on one pallet (behaving storage);
`none` as soon as any call is rejected, so `applyScans … = some db2`
states that every call in the sequence was accepted. -/
def applyScans (db : DB) (pid : String) (u : User) :
    List (ScanBody × Nat) → Option DB
  | [] => some db
  | step :: rest =>
    match recordScan db pid u step.1 stOk step.2 with
    | (db1, .ok _) => applyScans db1 pid u rest
    | (_, .error _) => none

/-- The audit-chain predicate: starting from status `s`, each record's
`previousStatus` equals the running status and hands over its
`newStatus`. -/
def chainOk : String → List AuditRecord → Bool
  | _, [] => true
  | s, r :: rest => r.previousStatus == s && chainOk r.newStatus rest

/-- The status after replaying a chronological audit list over start
status `s` (the last record's `newStatus`, or `s` when empty). -/
def endStatus (s : String) (h : List AuditRecord) : String :=
  h.foldl (fun _ r => r.newStatus) s

/-- States reachable through the pallet API from the empty store. -/
inductive Reachable : DB → Prop where
  | empty : Reachable {}
  | create (db : DB) (req : CreateReq) (now : Nat) :
      Reachable db → Reachable (createPallet db req now).1
  | scan (db : DB) (pid : String) (u : User) (body : ScanBody)
      (st : StorageOracle) (now : Nat) :
      Reachable db → Reachable (recordScan db pid u body st now).1
  | update (db : DB) (pid : String) (req : UpdateReq) (now : Nat) :
      Reachable db → Reachable (updatePallet db pid req now).1
  | delete (db : DB) (pid : String) :
      Reachable db → Reachable (deletePallet db pid).1

/-! ### Helper lemmas -/

/-- `find?` commutes with mapping a function that preserves the searched
field. -/
theorem find?_map_pres (l : List Pallet) (pid : String) (g : Pallet → Pallet)
    (hg : ∀ p, (g p).palletId = p.palletId) :
    (l.map g).find? (fun p => p.palletId == pid)
      = (l.find? (fun p => p.palletId == pid)).map g := by
  induction l with
  | nil => rfl
  | cons a t ih =>
    by_cases h : (a.palletId == pid) = true
    · simp [List.find?_cons, hg, h]
    · simp [List.find?_cons, hg, h, ih]

/-- Looking up the scanned pallet after the per-pallet map update. -/
theorem findPallet_map_if (ps : List Pallet) (scans : List AuditRecord)
    (pid : String) (f : Pallet → Pallet)
    (hf : ∀ q, (f q).palletId = q.palletId) (p : Pallet)
    (hp : findPallet ⟨ps, scans⟩ pid = some p) (scans2 : List AuditRecord) :
    findPallet ⟨ps.map (fun q => if q.palletId == pid then f q else q), scans2⟩ pid
      = some (f p) := by
  unfold findPallet at *
  simp only at hp ⊢
  rw [find?_map_pres _ _ _ (fun q => by
    by_cases h : (q.palletId == pid) = true <;> simp [h, hf])]
  rw [hp]
  have hpred := List.find?_some hp
  simp only at hpred
  have hpe : p.palletId = pid := by simpa using hpred
  simp [hpe]

/-- `find?` over an append when the first part has no hit. -/
theorem find?_append_of_none {α : Type} (p : α → Bool) (l1 l2 : List α)
    (h : l1.find? p = none) : (l1 ++ l2).find? p = l2.find? p := by
  rw [List.find?_append, h, Option.none_or]

/-- `recordScan` on an invalid (or absent) requested status. -/
theorem recordScan_invalid (db : DB) (pid : String) (u : User) (body : ScanBody)
    (st : StorageOracle) (now : Nat) (hsv : statusValid body = false) :
    recordScan db pid u body st now = (db, .error .invalidStatus) := by
  simp [recordScan, hsv]

/-- `recordScan` on a missing pallet (valid status). -/
theorem recordScan_notFound (db : DB) (pid : String) (u : User) (body : ScanBody)
    (st : StorageOracle) (now : Nat) (hsv : statusValid body = true)
    (hfp : findPallet db pid = none) :
    recordScan db pid u body st now = (db, .error .palletNotFound) := by
  simp [recordScan, hsv, hfp]

/-- `recordScan` when a write inside the transaction fails: ROLLBACK,
original state. -/
theorem recordScan_rollback (db : DB) (pid : String) (u : User) (body : ScanBody)
    (st : StorageOracle) (now : Nat) (p : Pallet) (hsv : statusValid body = true)
    (hfp : findPallet db pid = some p)
    (hst : (st.updateOk && st.insertOk && st.commitOk) = false) :
    recordScan db pid u body st now = (db, .error .storageFailure) := by
  simp [recordScan, hsv, hfp, hst]

/-- Unfolding a successful `recordScan`. -/
theorem recordScan_ok (db : DB) (pid : String) (u : User) (body : ScanBody)
    (st : StorageOracle) (now : Nat) (p : Pallet) (ns : String)
    (hp : findPallet db pid = some p)
    (hns : body.newStatus = some ns)
    (hv : validStatuses.contains ns = true)
    (hst : (st.updateOk && st.insertOk && st.commitOk) = true) :
    recordScan db pid u body st now =
      ({ pallets := db.pallets.map
           (fun q => if q.palletId == pid
                     then scanUpdate ns body.warehouseLocation now q else q),
         palletScans := db.palletScans ++ [mkScanRecord pid u body p.status ns now] },
       .ok ⟨scanUpdate ns body.warehouseLocation now p, p.status, ns⟩) := by
  have hv2 : ns ∈ validStatuses := by simpa using hv
  have hsv : statusValid body = true := by simp [statusValid, hns, hv2]
  simp [recordScan, hsv, hp, hns, hst]

/-- Inversion of a successful `recordScan`: what the inputs and the
resulting state must have been. -/
theorem recordScan_ok_inv (db : DB) (pid : String) (u : User) (body : ScanBody)
    (st : StorageOracle) (now : Nat) (db2 : DB) (resp : ScanResponse)
    (h : recordScan db pid u body st now = (db2, .ok resp)) :
    ∃ (p : Pallet) (ns : String),
      findPallet db pid = some p ∧ body.newStatus = some ns ∧
      validStatuses.contains ns = true ∧
      db2 = { pallets := db.pallets.map
                (fun q => if q.palletId == pid
                          then scanUpdate ns body.warehouseLocation now q else q),
              palletScans := db.palletScans ++ [mkScanRecord pid u body p.status ns now] } ∧
      resp = ⟨scanUpdate ns body.warehouseLocation now p, p.status, ns⟩ := by
  by_cases hsv : statusValid body = true
  · rcases hb : body.newStatus with _ | s
    · rw [statusValid, hb] at hsv
      simp at hsv
    · have hv : validStatuses.contains s = true := by
        rw [statusValid, hb] at hsv
        exact hsv
      rcases hfp : findPallet db pid with _ | p
      · rw [recordScan_notFound db pid u body st now hsv hfp] at h
        simp at h
      · by_cases hst : (st.updateOk && st.insertOk && st.commitOk) = true
        · rw [recordScan_ok db pid u body st now p s hfp hb hv hst] at h
          rw [Prod.mk.injEq] at h
          obtain ⟨hdb, hok⟩ := h
          injection hok with hresp
          exact ⟨p, s, rfl, rfl, hv, hdb.symm, hresp.symm⟩
        · rw [recordScan_rollback db pid u body st now p hsv hfp
              (by rcases h2 : (st.updateOk && st.insertOk && st.commitOk) with _ | _
                  · rfl
                  · exact absurd h2 hst)] at h
          simp at h
  · rw [recordScan_invalid db pid u body st now
        (by rcases h2 : statusValid body with _ | _
            · rfl
            · exact absurd h2 hsv)] at h
    simp at h

/-- `createPallet` when a required field is missing or falsy. -/
theorem createPallet_invalid (db : DB) (req : CreateReq) (now : Nat)
    (hcond : (!truthy req.palletId || !truthy req.itemCode
        || !truthy req.itemName || !truthyInt req.itemQuantity) = true) :
    createPallet db req now = (db, .error .validationError) := by
  simp only [createPallet, hcond, if_true]

/-- `createPallet` on an already-used `palletId`. -/
theorem createPallet_duplicate (db : DB) (req : CreateReq) (now : Nat)
    (hcond : (!truthy req.palletId || !truthy req.itemCode
        || !truthy req.itemName || !truthyInt req.itemQuantity) = false)
    (hdup : (findPallet db (req.palletId.getD "")).isSome = true) :
    createPallet db req now = (db, .error .duplicateId) := by
  simp [createPallet, hcond, hdup]

/-- Inversion of a successful `createPallet`. -/
theorem createPallet_ok_inv (db : DB) (req : CreateReq) (now : Nat)
    (db2 : DB) (p : Pallet)
    (h : createPallet db req now = (db2, .ok p)) :
    p.palletId = req.palletId.getD "" ∧ p.status = "At Production" ∧
    db2 = { db with pallets := db.pallets ++ [p] } ∧
    findPallet db p.palletId = none := by
  by_cases h1 : (!truthy req.palletId || !truthy req.itemCode
      || !truthy req.itemName || !truthyInt req.itemQuantity) = true
  · rw [createPallet_invalid db req now h1] at h
    simp at h
  · have h1f : (!truthy req.palletId || !truthy req.itemCode
        || !truthy req.itemName || !truthyInt req.itemQuantity) = false := by
      rcases h2 : (!truthy req.palletId || !truthy req.itemCode
          || !truthy req.itemName || !truthyInt req.itemQuantity) with _ | _
      · rfl
      · exact absurd h2 h1
    by_cases h2 : (findPallet db (req.palletId.getD "")).isSome = true
    · rw [createPallet_duplicate db req now h1f h2] at h
      simp at h
    · have h2n : findPallet db (req.palletId.getD "") = none := by
        rcases hfp : findPallet db (req.palletId.getD "") with _ | q
        · rfl
        · rw [hfp] at h2
          simp at h2
      rw [createPallet, if_neg (by simp [h1f])] at h
      simp only [h2n, Option.isSome_none, Bool.false_eq_true, if_false] at h
      rw [Prod.mk.injEq] at h
      obtain ⟨hdb, hok⟩ := h
      injection hok with hp
      subst hp
      exact ⟨rfl, rfl, hdb.symm, h2n⟩

/-- Appending an audit row for the pallet extends its chronological
history by exactly that row. -/
theorem scansFor_append_one (ps : List Pallet) (scans : List AuditRecord)
    (r : AuditRecord) (pid : String) (hr : (r.palletId == pid) = true) :
    scansFor ⟨ps, scans ++ [r]⟩ pid = scansFor ⟨ps, scans⟩ pid ++ [r] := by
  simp [scansFor, List.filter_append, hr]

/-- `endStatus` over a cons steps to the record's `newStatus`. -/
theorem endStatus_cons (s : String) (r : AuditRecord) (h : List AuditRecord) :
    endStatus s (r :: h) = endStatus r.newStatus h := rfl

/-- `endStatus` of a non-empty history is the last record's `newStatus`. -/
theorem endStatus_getLast (s : String) :
    ∀ (recs : List AuditRecord) (r : AuditRecord),
      recs.getLast? = some r → endStatus s recs = r.newStatus := by
  intro recs
  induction recs generalizing s with
  | nil =>
    intro r h
    simp at h
  | cons a t ih =>
    intro r h
    cases t with
    | nil =>
      simp at h
      rw [h]
      rfl
    | cons b t2 =>
      rw [List.getLast?_cons_cons] at h
      rw [endStatus_cons]
      exact ih a.newStatus r h

/-- Core induction: running an accepted sequence of scans on one pallet
appends one audit row per scan, those rows form a valid chain starting
at the pallet's status beforehand, and the pallet's final status is the
chain's end status. -/
theorem applyScans_spec (pid : String) (u : User) :
    ∀ (steps : List (ScanBody × Nat)) (db db2 : DB) (p : Pallet),
      findPallet db pid = some p →
      applyScans db pid u steps = some db2 →
      ∃ (p2 : Pallet) (recs : List AuditRecord),
        findPallet db2 pid = some p2 ∧
        scansFor db2 pid = scansFor db pid ++ recs ∧
        recs.length = steps.length ∧
        chainOk p.status recs = true ∧
        p2.status = endStatus p.status recs := by
  intro steps
  induction steps with
  | nil =>
    intro db db2 p hp h
    have hdb : db = db2 := by
      simpa [applyScans] using h
    subst hdb
    exact ⟨p, [], hp, by simp, rfl, rfl, rfl⟩
  | cons step rest ih =>
    intro db db2 p hp h
    rw [applyScans] at h
    rcases hsc : recordScan db pid u step.1 stOk step.2 with ⟨db1, res⟩
    rw [hsc] at h
    cases res with
    | error e => simp at h
    | ok resp =>
      simp only at h
      obtain ⟨q, ns, hq, hns, hv, hdb1, hresp⟩ :=
        recordScan_ok_inv db pid u step.1 stOk step.2 db1 resp hsc
      have hqp : q = p := by
        rw [hp] at hq
        injection hq with h2
        exact h2.symm
      subst hqp
      have hfind1 : findPallet db1 pid = some (scanUpdate ns step.1.warehouseLocation step.2 q) := by
        rw [hdb1]
        exact findPallet_map_if db.pallets db.palletScans pid
          (scanUpdate ns step.1.warehouseLocation step.2) (fun x => rfl) q hp _
      obtain ⟨p2, recs1, hfind2, hscans2, hlen, hchain, hend⟩ :=
        ih db1 db2 (scanUpdate ns step.1.warehouseLocation step.2 q) hfind1 h
      refine ⟨p2, mkScanRecord pid u step.1 q.status ns step.2 :: recs1, hfind2, ?_, ?_, ?_, ?_⟩
      · rw [hscans2, hdb1]
        have : scansFor ⟨db.pallets.map
            (fun x => if x.palletId == pid then scanUpdate ns step.1.warehouseLocation step.2 x else x),
            db.palletScans ++ [mkScanRecord pid u step.1 q.status ns step.2]⟩ pid
            = scansFor ⟨db.pallets, db.palletScans⟩ pid ++ [mkScanRecord pid u step.1 q.status ns step.2] := by
          apply scansFor_append_one
          simp [mkScanRecord]
        rw [this]
        simp [scansFor]
      · simp [hlen]
      · rw [chainOk]
        simp only [mkScanRecord]
        rw [Bool.and_eq_true]
        constructor
        · simp
        · have : (scanUpdate ns step.1.warehouseLocation step.2 q).status = ns := rfl
          rw [this] at hchain
          exact hchain
      · rw [endStatus_cons]
        simp only [mkScanRecord]
        have : (scanUpdate ns step.1.warehouseLocation step.2 q).status = ns := rfl
        rw [this] at hend
        exact hend

/-- Boolean contrapositive helper. -/
theorem eq_false_of_not_true {b : Bool} (h : ¬ b = true) : b = false := by
  rcases h2 : b with _ | _
  · rfl
  · exact absurd h2 h

/-- Unfolding a successful `createPallet`. -/
theorem createPallet_success (db : DB) (req : CreateReq) (now : Nat)
    (hcond : (!truthy req.palletId || !truthy req.itemCode
        || !truthy req.itemName || !truthyInt req.itemQuantity) = false)
    (hdup : findPallet db (req.palletId.getD "") = none) :
    createPallet db req now =
      ({ db with pallets := db.pallets ++ [freshPallet req now] },
       .ok (freshPallet req now)) := by
  simp [createPallet, hcond, hdup]

/-- `PUT` with an empty body. -/
theorem updatePallet_noFields (db : DB) (pid : String) (req : UpdateReq)
    (now : Nat) (hreq : hasUpdates req = false) :
    updatePallet db pid req now = (db, .error .noFieldsToUpdate) := by
  simp [updatePallet, hreq]

/-- `PUT` on a missing pallet. -/
theorem updatePallet_notFound (db : DB) (pid : String) (req : UpdateReq)
    (now : Nat) (hreq : hasUpdates req = true)
    (hfp : findPallet db pid = none) :
    updatePallet db pid req now = (db, .error .palletNotFound) := by
  simp [updatePallet, hreq, hfp]

/-- Unfolding a successful `PUT`. -/
theorem updatePallet_ok (db : DB) (pid : String) (req : UpdateReq)
    (now : Nat) (p : Pallet) (hreq : hasUpdates req = true)
    (hfp : findPallet db pid = some p) :
    updatePallet db pid req now =
      ({ db with pallets := (db.pallets.map
          (fun q => if q.palletId == pid then adminUpdate req now q else q)) },
       .ok (adminUpdate req now p)) := by
  simp [updatePallet, hreq, hfp]

/-- `DELETE` on a missing pallet. -/
theorem deletePallet_notFound (db : DB) (pid : String)
    (hfp : findPallet db pid = none) :
    deletePallet db pid = (db, .error .palletNotFound) := by
  simp [deletePallet, hfp]

/-- Unfolding a successful `DELETE` (with the schema's cascade). -/
theorem deletePallet_ok (db : DB) (pid : String) (p : Pallet)
    (hfp : findPallet db pid = some p) :
    deletePallet db pid =
      ({ pallets := db.pallets.filter (fun q => !(q.palletId == pid)),
         palletScans := db.palletScans.filter (fun r => !(r.palletId == pid)) },
       .ok ()) := by
  simp [deletePallet, hfp]

/-- Every stored pallet row carries one of the 7 enum statuses. -/
def statusInv (db : DB) : Prop :=
  ∀ p ∈ db.pallets, p.status ∈ validStatuses

theorem statusInv_create (db : DB) (req : CreateReq) (now : Nat)
    (h : statusInv db) : statusInv (createPallet db req now).1 := by
  by_cases h1 : (!truthy req.palletId || !truthy req.itemCode
      || !truthy req.itemName || !truthyInt req.itemQuantity) = true
  · rw [createPallet_invalid db req now h1]
    exact h
  · have h1f := eq_false_of_not_true h1
    rcases hfp : findPallet db (req.palletId.getD "") with _ | q
    · rw [createPallet_success db req now h1f hfp]
      intro p hp
      simp only [List.mem_append, List.mem_singleton] at hp
      rcases hp with hp | hp
      · exact h p hp
      · rw [hp]
        simp [freshPallet, validStatuses]
    · rw [createPallet_duplicate db req now h1f (by simp [hfp])]
      exact h

theorem statusInv_scan (db : DB) (pid : String) (u : User) (body : ScanBody)
    (st : StorageOracle) (now : Nat) (h : statusInv db) :
    statusInv (recordScan db pid u body st now).1 := by
  by_cases hsv : statusValid body = true
  · rcases hb : body.newStatus with _ | s
    · rw [statusValid, hb] at hsv
      simp at hsv
    · have hv : validStatuses.contains s = true := by
        rw [statusValid, hb] at hsv
        exact hsv
      have hv2 : s ∈ validStatuses := by simpa using hv
      rcases hfp : findPallet db pid with _ | p
      · rw [recordScan_notFound db pid u body st now hsv hfp]
        exact h
      · by_cases hst : (st.updateOk && st.insertOk && st.commitOk) = true
        · rw [recordScan_ok db pid u body st now p s hfp hb hv hst]
          intro q hq
          simp only [List.mem_map] at hq
          obtain ⟨a, ha, hqa⟩ := hq
          rw [← hqa]
          by_cases hc : (a.palletId == pid) = true
          · simp only [hc, if_true]
            exact hv2
          · simp only [hc, if_false]
            exact h a ha
        · rw [recordScan_rollback db pid u body st now p hsv hfp
              (eq_false_of_not_true hst)]
          exact h
  · rw [recordScan_invalid db pid u body st now (eq_false_of_not_true hsv)]
    exact h

theorem statusInv_update (db : DB) (pid : String) (req : UpdateReq)
    (now : Nat) (h : statusInv db) :
    statusInv (updatePallet db pid req now).1 := by
  by_cases hreq : hasUpdates req = true
  · rcases hfp : findPallet db pid with _ | p
    · rw [updatePallet_notFound db pid req now hreq hfp]
      exact h
    · rw [updatePallet_ok db pid req now p hreq hfp]
      intro q hq
      simp only [List.mem_map] at hq
      obtain ⟨a, ha, hqa⟩ := hq
      rw [← hqa]
      by_cases hc : (a.palletId == pid) = true
      · simp only [hc, if_true]
        exact h a ha
      · simp only [hc, if_false]
        exact h a ha
  · rw [updatePallet_noFields db pid req now (eq_false_of_not_true hreq)]
    exact h

theorem statusInv_delete (db : DB) (pid : String) (h : statusInv db) :
    statusInv (deletePallet db pid).1 := by
  rcases hfp : findPallet db pid with _ | p
  · rw [deletePallet_notFound db pid hfp]
    exact h
  · rw [deletePallet_ok db pid p hfp]
    intro q hq
    simp only [List.mem_filter] at hq
    exact h q hq.1

/-- The status enum invariant holds in every API-reachable state. -/
theorem statusInv_reachable (db : DB) (h : Reachable db) : statusInv db := by
  induction h with
  | empty =>
    intro p hp
    simp at hp
  | create db req now hdb ih => exact statusInv_create db req now ih
  | scan db pid u body st now hdb ih => exact statusInv_scan db pid u body st now ih
  | update db pid req now hdb ih => exact statusInv_update db pid req now ih
  | delete db pid hdb ih => exact statusInv_delete db pid ih

/-- Decidable equality for `Except` results, so concrete runs can be
checked by `decide`. -/
instance {e a : Type} [DecidableEq e] [DecidableEq a] : DecidableEq (Except e a) := fun x y =>
  match x, y with
  | .error a1, .error b1 => decidable_of_iff (a1 = b1) (by simp)
  | .ok a1, .ok b1 => decidable_of_iff (a1 = b1) (by simp)
  | .error _, .ok _ => isFalse (by simp)
  | .ok _, .error _ => isFalse (by simp)

/-! ### Concrete example states used to exercise the theorems -/

/-- An authenticated FLO operator. -/
def userA : User := { username := "flo1", full_name := "Flo One" }

/-- A well-formed creation request. -/
def reqA : CreateReq :=
  { palletId := some "PLT001", itemCode := some "IC1",
    itemName := some "Widget", itemQuantity := some 5 }

/-- The pallet row `reqA` creates (at time 0). -/
def palletA : Pallet :=
  { palletId := "PLT001", itemCode := "IC1", itemName := "Widget",
    itemQuantity := 5 }

/-- Store holding exactly the freshly created `palletA`. -/
def dbA : DB := { pallets := [palletA] }

def bodyPicked : ScanBody := { newStatus := some "Picked from Production" }

def bodyWh : ScanBody :=
  { newStatus := some "At Warehouse", warehouseLocation := some "A-12-3" }

def bodyDelivered : ScanBody := { newStatus := some "Delivered" }

def bodyBogus : ScanBody := { newStatus := some "Bogus" }

def stepsW : List (ScanBody × Nat) := [(bodyPicked, 1), (bodyWh, 2)]

/-- `dbA` after the accepted two-scan sequence `stepsW`. -/
def dbW : DB := (applyScans dbA "PLT001" userA stepsW).getD {}

/-- `dbA` after one accepted scan. -/
def dbScanned : DB := (recordScan dbA "PLT001" userA bodyPicked stOk 1).1

/-- `dbScanned` after deleting the pallet (cascade removes its audit rows). -/
def dbDeleted : DB := (deletePallet dbScanned "PLT001").1

/-- A creation request reusing `PLT001` but missing `itemCode`. -/
def reqDupBad : CreateReq :=
  { palletId := some "PLT001", itemName := some "X", itemQuantity := some 1 }

/-- A creation request with `itemQuantity` equal to 0 (JS-falsy). -/
def reqQ0 : CreateReq :=
  { palletId := some "PLT002", itemCode := some "IC", itemName := some "N",
    itemQuantity := some 0 }

/-- A creation request with an empty-string `palletId` (JS-falsy). -/
def reqEmptyId : CreateReq :=
  { palletId := some "", itemCode := some "IC", itemName := some "N",
    itemQuantity := some 1 }

/-! ### Claims -/

/-- C1: a `recordScan` on an existing pallet with a valid requested
status commits the pallet update (status, `updatedAt`, and
`warehouseLocation` when supplied) together with the append of exactly
one audit record as one atomic unit: when every write succeeds the
store gains precisely the updated pallet row and one new audit record,
and when any write of the transaction fails the store is left exactly
as it was (zero audit records, pallet row untouched). -/
theorem scan_atomic (db : DB) (pid : String) (u : User) (body : ScanBody)
    (st : StorageOracle) (now : Nat) (p : Pallet) (ns : String)
    (hp : findPallet db pid = some p)
    (hns : body.newStatus = some ns)
    (hv : validStatuses.contains ns = true) :
    ((st.updateOk && st.insertOk && st.commitOk) = true →
      recordScan db pid u body st now =
        ({ pallets := (db.pallets.map (fun q =>
             if q.palletId == pid then scanUpdate ns body.warehouseLocation now q else q)),
           palletScans := db.palletScans ++ [mkScanRecord pid u body p.status ns now] },
         .ok ⟨scanUpdate ns body.warehouseLocation now p, p.status, ns⟩))
    ∧ ((st.updateOk && st.insertOk && st.commitOk) = false →
      recordScan db pid u body st now = (db, .error .storageFailure)) := by
  have hv2 : ns ∈ validStatuses := by simpa using hv
  have hsv : statusValid body = true := by simp [statusValid, hns, hv2]
  exact ⟨fun hst => recordScan_ok db pid u body st now p ns hp hns hv hst,
         fun hst => recordScan_rollback db pid u body st now p hsv hp hst⟩

theorem scan_atomic_witness :
    findPallet dbA "PLT001" = some palletA ∧
    bodyDelivered.newStatus = some "Delivered" ∧
    validStatuses.contains "Delivered" = true ∧
    recordScan dbA "PLT001" userA bodyDelivered stOk 5 =
      ({ pallets := (dbA.pallets.map (fun q =>
           if q.palletId == "PLT001" then scanUpdate "Delivered" bodyDelivered.warehouseLocation 5 q else q)),
         palletScans := dbA.palletScans ++ [mkScanRecord "PLT001" userA bodyDelivered palletA.status "Delivered" 5] },
       .ok ⟨scanUpdate "Delivered" bodyDelivered.warehouseLocation 5 palletA, palletA.status, "Delivered"⟩) ∧
    recordScan dbA "PLT001" userA bodyDelivered ⟨true, false, true⟩ 5 =
      (dbA, .error .storageFailure) := by
  refine ⟨by decide, rfl, by decide, ?_, ?_⟩
  · exact (scan_atomic dbA "PLT001" userA bodyDelivered stOk 5 palletA "Delivered"
      (by decide) rfl (by decide)).1 (by decide)
  · exact (scan_atomic dbA "PLT001" userA bodyDelivered ⟨true, false, true⟩ 5 palletA "Delivered"
      (by decide) rfl (by decide)).2 (by decide)

/-- C2: starting from a freshly created pallet, any accepted sequence of
n scans leaves a history of exactly n records (returned most recent
first by `getHistory`, i.e. `recs.reverse` for the chronological
`recs`), the chronological records chain correctly (each record's
`previousStatus` equals the `newStatus` of the preceding record, the
first one starting at the created status), and the pallet's current
status equals the `newStatus` of its most recent audit record. -/
theorem scan_history_chain (db0 db1 db2 : DB) (req : CreateReq) (now : Nat)
    (p : Pallet) (u : User) (steps : List (ScanBody × Nat))
    (hcreate : createPallet db0 req now = (db1, .ok p))
    (hfresh : scansFor db0 p.palletId = [])
    (happ : applyScans db1 p.palletId u steps = some db2) :
    ∃ (p2 : Pallet) (recs : List AuditRecord),
      getHistory db2 p.palletId = .ok ⟨p.palletId, recs.reverse⟩ ∧
      recs.length = steps.length ∧
      chainOk p.status recs = true ∧
      findPallet db2 p.palletId = some p2 ∧
      p2.status = endStatus p.status recs ∧
      ∀ r, recs.getLast? = some r → p2.status = r.newStatus := by
  obtain ⟨hpid, hstat, hdb1, hnone⟩ := createPallet_ok_inv db0 req now db1 p hcreate
  have hfind1 : findPallet db1 p.palletId = some p := by
    rw [hdb1]
    unfold findPallet at hnone ⊢
    simp only
    rw [find?_append_of_none _ _ _ hnone]
    simp [List.find?]
  have hscans1 : scansFor db1 p.palletId = [] := by
    rw [hdb1]
    simpa [scansFor] using hfresh
  obtain ⟨p2, recs, hfind2, hscans2, hlen, hchain, hend⟩ :=
    applyScans_spec p.palletId u steps db1 db2 p hfind1 happ
  rw [hscans1] at hscans2
  simp only [List.nil_append] at hscans2
  refine ⟨p2, recs, ?_, hlen, hchain, hfind2, hend, ?_⟩
  · simp [getHistory, hscans2]
  · intro r hr
    rw [hend]
    exact endStatus_getLast p.status recs r hr

theorem scan_history_chain_witness :
    createPallet {} reqA 0 = (dbA, .ok palletA) ∧
    scansFor {} palletA.palletId = [] ∧
    applyScans dbA palletA.palletId userA stepsW = some dbW ∧
    (∃ (p2 : Pallet) (recs : List AuditRecord),
      getHistory dbW palletA.palletId = .ok ⟨palletA.palletId, recs.reverse⟩ ∧
      recs.length = stepsW.length ∧
      chainOk palletA.status recs = true ∧
      findPallet dbW palletA.palletId = some p2 ∧
      p2.status = endStatus palletA.status recs ∧
      ∀ r, recs.getLast? = some r → p2.status = r.newStatus) := by
  refine ⟨rfl, rfl, rfl, ?_⟩
  exact scan_history_chain {} dbA dbW reqA 0 palletA userA stepsW rfl rfl rfl

/-- C3: a successful `recordScan` captures `previousStatus` as the
pallet's status at the locking read, sets the stored pallet's status to
the requested status, appends one audit record whose
`previousStatus`/`newStatus` are exactly that pair, and returns the
updated pallet together with the pair. -/
theorem scan_success_fields (db : DB) (pid : String) (u : User) (body : ScanBody)
    (now : Nat) (db2 : DB) (resp : ScanResponse) (p : Pallet)
    (hp : findPallet db pid = some p)
    (h : recordScan db pid u body stOk now = (db2, .ok resp)) :
    ∃ ns, body.newStatus = some ns ∧
      resp.previousStatus = p.status ∧
      resp.newStatus = ns ∧
      resp.pallet = scanUpdate ns body.warehouseLocation now p ∧
      resp.pallet.status = ns ∧
      findPallet db2 pid = some resp.pallet ∧
      db2.palletScans = db.palletScans ++ [mkScanRecord pid u body p.status ns now] ∧
      (mkScanRecord pid u body p.status ns now).previousStatus = p.status ∧
      (mkScanRecord pid u body p.status ns now).newStatus = ns := by
  obtain ⟨q, ns, hq, hns, hv, hdb2, hresp⟩ :=
    recordScan_ok_inv db pid u body stOk now db2 resp h
  have hqp : q = p := by
    rw [hp] at hq
    injection hq with h2
    exact h2.symm
  subst hqp
  subst hresp
  refine ⟨ns, hns, rfl, rfl, rfl, rfl, ?_, ?_, rfl, rfl⟩
  · rw [hdb2]
    exact findPallet_map_if db.pallets db.palletScans pid
      (scanUpdate ns body.warehouseLocation now) (fun x => rfl) q hp _
  · rw [hdb2]

theorem scan_success_fields_witness :
    findPallet dbA "PLT001" = some palletA ∧
    recordScan dbA "PLT001" userA bodyPicked stOk 1 =
      (dbScanned, .ok ⟨scanUpdate "Picked from Production" none 1 palletA,
        "At Production", "Picked from Production"⟩) ∧
    (∃ ns, bodyPicked.newStatus = some ns ∧
      (ScanResponse.mk (scanUpdate "Picked from Production" none 1 palletA)
        "At Production" "Picked from Production").previousStatus = palletA.status ∧
      (ScanResponse.mk (scanUpdate "Picked from Production" none 1 palletA)
        "At Production" "Picked from Production").newStatus = ns ∧
      (ScanResponse.mk (scanUpdate "Picked from Production" none 1 palletA)
        "At Production" "Picked from Production").pallet
        = scanUpdate ns bodyPicked.warehouseLocation 1 palletA ∧
      (ScanResponse.mk (scanUpdate "Picked from Production" none 1 palletA)
        "At Production" "Picked from Production").pallet.status = ns ∧
      findPallet dbScanned "PLT001"
        = some (ScanResponse.mk (scanUpdate "Picked from Production" none 1 palletA)
            "At Production" "Picked from Production").pallet ∧
      dbScanned.palletScans
        = dbA.palletScans ++ [mkScanRecord "PLT001" userA bodyPicked palletA.status ns 1] ∧
      (mkScanRecord "PLT001" userA bodyPicked palletA.status ns 1).previousStatus
        = palletA.status ∧
      (mkScanRecord "PLT001" userA bodyPicked palletA.status ns 1).newStatus = ns) := by
  refine ⟨by decide, rfl, ?_⟩
  exact scan_success_fields dbA "PLT001" userA bodyPicked 1 dbScanned
    ⟨scanUpdate "Picked from Production" none 1 palletA,
     "At Production", "Picked from Production"⟩ palletA (by decide) rfl

/-- C4: a requested status outside the 7-value enum (including an absent
one) makes `recordScan` fail with `InvalidStatus` leaving the store
untouched — this check runs before any lookup or mutation — while any
member of the enum is accepted on an existing pallet regardless of the
current status (no ordering constraint between the 7 states). -/
theorem scan_status_validation (db : DB) (pid : String) (u : User)
    (body : ScanBody) (st : StorageOracle) (now : Nat) :
    (statusValid body = false →
      recordScan db pid u body st now = (db, .error .invalidStatus)) ∧
    (∀ p ns, findPallet db pid = some p → body.newStatus = some ns →
      validStatuses.contains ns = true →
      ∃ db2 resp, recordScan db pid u body stOk now = (db2, .ok resp)) := by
  refine ⟨fun hsv => recordScan_invalid db pid u body st now hsv, ?_⟩
  intro p ns hp hns hv
  exact ⟨_, _, recordScan_ok db pid u body stOk now p ns hp hns hv (by decide)⟩

theorem scan_status_validation_witness :
    statusValid bodyBogus = false ∧
    recordScan dbA "PLT001" userA bodyBogus stOk 3 = (dbA, .error .invalidStatus) ∧
    (∃ db2 resp, recordScan dbA "PLT001" userA bodyDelivered stOk 3 = (db2, .ok resp)) := by
  refine ⟨by decide, ?_, ?_⟩
  · exact (scan_status_validation dbA "PLT001" userA bodyBogus stOk 3).1 (by decide)
  · exact (scan_status_validation dbA "PLT001" userA bodyDelivered stOk 3).2
      palletA "Delivered" (by decide) rfl (by decide)

/-- C5 counterexample: a scan naming a nonexistent pallet but carrying
an invalid status fails with `InvalidStatus`, not `PalletNotFound`
(the status check runs first), refuting the claim's "always fails with
PalletNotFound". -/
theorem scan_missing_pallet_counterexample :
    findPallet {} "PLT404" = none ∧
    recordScan {} "PLT404" userA bodyBogus stOk 0 = (({} : DB), .error .invalidStatus) ∧
    ApiError.invalidStatus ≠ ApiError.palletNotFound := by
  exact ⟨rfl, rfl, by decide⟩

/-- C5 amended: a `recordScan` whose requested status is valid but whose
`palletId` does not identify an existing pallet fails with
`PalletNotFound` and leaves the store untouched (zero audit records);
when the requested status is additionally invalid the call still
mutates nothing but reports `InvalidStatus` instead. -/
theorem scan_missing_pallet (db : DB) (pid : String) (u : User) (body : ScanBody)
    (st : StorageOracle) (now : Nat)
    (hsv : statusValid body = true)
    (hfp : findPallet db pid = none) :
    recordScan db pid u body st now = (db, .error .palletNotFound) :=
  recordScan_notFound db pid u body st now hsv hfp

theorem scan_missing_pallet_witness :
    statusValid bodyDelivered = true ∧
    findPallet {} "PLT404" = none ∧
    recordScan {} "PLT404" userA bodyDelivered stOk 0 = (({} : DB), .error .palletNotFound) :=
  ⟨by decide, rfl, scan_missing_pallet {} "PLT404" userA bodyDelivered stOk 0 (by decide) rfl⟩

/-- C6 counterexample: after the pallet is deleted (cascade removed its
audit rows), `getHistory` does not fail with `PalletNotFound` — it
succeeds with an empty history, because the route never checks that the
pallet exists. -/
theorem history_missing_pallet_counterexample :
    findPallet dbDeleted "PLT001" = none ∧
    getHistory dbDeleted "PLT001" = .ok ⟨"PLT001", []⟩ := by
  exact ⟨by decide, by decide⟩

/-- C6 amended: `getHistory` returns the pallet's audit records most
recent first (a successful scan's record becomes the head), and an
empty sequence — as a success, never an error — when the pallet has no
scans, including when the pallet does not exist at all or has been
deleted (the route performs no existence check, so `PalletNotFound` is
never reported). -/
theorem history_behavior (db : DB) (pid : String) (u : User) (body : ScanBody)
    (now : Nat) :
    (scansFor db pid = [] → getHistory db pid = .ok ⟨pid, []⟩) ∧
    (∀ db2, deletePallet db pid = (db2, .ok ()) → getHistory db2 pid = .ok ⟨pid, []⟩) ∧
    (∀ db2 resp, recordScan db pid u body stOk now = (db2, .ok resp) →
      ∃ r, getHistory db2 pid = .ok ⟨pid, r :: (scansFor db pid).reverse⟩) := by
  refine ⟨?_, ?_, ?_⟩
  · intro h
    simp [getHistory, h]
  · intro db2 h
    rcases hfp : findPallet db pid with _ | p
    · rw [deletePallet_notFound db pid hfp] at h
      simp at h
    · rw [deletePallet_ok db pid p hfp] at h
      rw [Prod.mk.injEq] at h
      obtain ⟨hdb2, _⟩ := h
      rw [← hdb2]
      simp [getHistory, scansFor, List.filter_filter, Bool.and_not_self]
  · intro db2 resp h
    obtain ⟨p, ns, hp, hns, hv, hdb2, hresp⟩ :=
      recordScan_ok_inv db pid u body stOk now db2 resp h
    refine ⟨mkScanRecord pid u body p.status ns now, ?_⟩
    have hs : scansFor db2 pid
        = scansFor db pid ++ [mkScanRecord pid u body p.status ns now] := by
      rw [hdb2]
      exact scansFor_append_one _ _ _ _ (by simp [mkScanRecord])
    simp [getHistory, hs]

theorem history_behavior_witness :
    getHistory dbA "PLT001" = .ok ⟨"PLT001", []⟩ ∧
    getHistory dbDeleted "PLT001" = .ok ⟨"PLT001", []⟩ ∧
    (∃ r, getHistory dbScanned "PLT001" = .ok ⟨"PLT001", r :: (scansFor dbA "PLT001").reverse⟩) := by
  refine ⟨?_, ?_, ?_⟩
  · exact (history_behavior dbA "PLT001" userA bodyPicked 1).1 rfl
  · exact (history_behavior dbScanned "PLT001" userA bodyPicked 1).2.1 dbDeleted (by decide)
  · exact (history_behavior dbA "PLT001" userA bodyPicked 1).2.2 dbScanned
      ⟨scanUpdate "Picked from Production" none 1 palletA,
       "At Production", "Picked from Production"⟩ rfl

/-- C7 counterexample: a creation request whose `palletId` already
exists but whose `itemCode` is missing fails with the required-fields
validation error, not `DuplicateId` (the field check runs first),
refuting the claim's universal "fails with DuplicateId". -/
theorem duplicate_create_counterexample :
    (findPallet dbA "PLT001").isSome = true ∧
    createPallet dbA reqDupBad 7 = (dbA, .error .validationError) ∧
    ApiError.validationError ≠ ApiError.duplicateId := by
  exact ⟨by decide, rfl, by decide⟩

/-- C7 amended: a `createPallet` call whose required fields pass the
truthiness validation and whose `palletId` already exists fails with
`DuplicateId` and changes nothing — the original pallet and the audit
log are untouched; a call failing the field validation also changes
nothing but reports the validation error instead. -/
theorem duplicate_create_rejected (db : DB) (req : CreateReq) (now : Nat)
    (hcond : (!truthy req.palletId || !truthy req.itemCode
        || !truthy req.itemName || !truthyInt req.itemQuantity) = false)
    (hdup : (findPallet db (req.palletId.getD "")).isSome = true) :
    createPallet db req now = (db, .error .duplicateId) :=
  createPallet_duplicate db req now hcond hdup

theorem duplicate_create_rejected_witness :
    ((!truthy reqA.palletId || !truthy reqA.itemCode
        || !truthy reqA.itemName || !truthyInt reqA.itemQuantity) = false) ∧
    ((findPallet dbA (reqA.palletId.getD "")).isSome = true) ∧
    createPallet dbA reqA 7 = (dbA, .error .duplicateId) :=
  ⟨by decide, by decide, duplicate_create_rejected dbA reqA 7 (by decide) (by decide)⟩

/-- C8: every pallet successfully created by `createPallet` starts with
status `At Production`, and in every state reachable through the API
every stored pallet's status is one of the 7 enum values. -/
theorem status_always_valid :
    (∀ db, Reachable db → ∀ p ∈ db.pallets, p.status ∈ validStatuses) ∧
    (∀ db req now db2 p, createPallet db req now = (db2, Except.ok p) →
      p.status = "At Production") := by
  constructor
  · exact fun db h => statusInv_reachable db h
  · intro db req now db2 p h
    exact (createPallet_ok_inv db req now db2 p h).2.1

theorem status_always_valid_witness :
    palletA.status ∈ validStatuses ∧ palletA.status = "At Production" :=
  ⟨status_always_valid.1 dbA (Reachable.create {} reqA 0 Reachable.empty)
     palletA (by decide),
   status_always_valid.2 {} reqA 0 dbA palletA rfl⟩

/-- C9: the administrative `PUT` update never changes any pallet's
status and never appends an audit record, on every one of its paths. -/
theorem admin_update_frame (db : DB) (pid : String) (req : UpdateReq) (now : Nat) :
    (updatePallet db pid req now).1.palletScans = db.palletScans ∧
    ∀ x, (((updatePallet db pid req now).1.pallets.find?
        (fun p => p.palletId == x)).map Pallet.status)
      = ((db.pallets.find? (fun p => p.palletId == x)).map Pallet.status) := by
  by_cases hreq : hasUpdates req = true
  · rcases hfp : findPallet db pid with _ | p
    · rw [updatePallet_notFound db pid req now hreq hfp]
      exact ⟨rfl, fun x => rfl⟩
    · rw [updatePallet_ok db pid req now p hreq hfp]
      refine ⟨rfl, fun x => ?_⟩
      simp only
      rw [find?_map_pres db.pallets x
        (fun q => if q.palletId == pid then adminUpdate req now q else q)
        (fun q => by by_cases h : (q.palletId == pid) = true <;> simp [h, adminUpdate])]
      rcases hfx : db.pallets.find? (fun p2 => p2.palletId == x) with _ | q
      · rw [hfx]
        rfl
      · rw [hfx]
        by_cases h : q.palletId = pid
        · simp [h, adminUpdate]
        · simp [h]
  · rw [updatePallet_noFields db pid req now (eq_false_of_not_true hreq)]
    exact ⟨rfl, fun x => rfl⟩

/-- C10: `createPallet` rejects with the validation error, creating
nothing, whenever `palletId`, `itemCode`, `itemName` or `itemQuantity`
is missing or JS-falsy — including `itemQuantity = 0` and an
empty-string `palletId`, which the storage schema alone would accept. -/
theorem create_requires_fields (db : DB) (req : CreateReq) (now : Nat)
    (h : truthy req.palletId = false ∨ truthy req.itemCode = false ∨
         truthy req.itemName = false ∨ truthyInt req.itemQuantity = false) :
    createPallet db req now = (db, .error .validationError) := by
  apply createPallet_invalid
  rcases h with h | h | h | h <;> simp [h]

theorem create_requires_fields_witness :
    truthyInt reqQ0.itemQuantity = false ∧
    createPallet {} reqQ0 0 = (({} : DB), .error .validationError) ∧
    truthy reqEmptyId.palletId = false ∧
    createPallet {} reqEmptyId 0 = (({} : DB), .error .validationError) :=
  ⟨by decide,
   create_requires_fields {} reqQ0 0 (Or.inr (Or.inr (Or.inr (by decide)))),
   by decide,
   create_requires_fields {} reqEmptyId 0 (Or.inl (by decide))⟩

end Warehouse
